import Mathlib

/-!
Verification of the agent-teaching repository's core abstractions:
the sliding-window conversation memory, the tool registry, the unified
llama.cpp client (textual tool-call extraction), the tool-use control loop
and the ReAct control loop.  Each definition is a shallow embedding of the
corresponding Python function; Python's in-place mutation is modelled by
explicit state passing, exceptions by `Except`, and regular-expression
scans by executable character-list scanners with the same semantics on the
relevant pattern grammar.
-/

/-- A normalized conversation message (`{"role": ..., "content": ...}`).
Extra keyword fields (such as `tool_call_id`) carried by some messages do
not affect any behaviour modelled here and are omitted. -/
structure Msg where
  role : String
  content : String
deriving DecidableEq, Repr

/-- Python `str.isspace` on the ASCII whitespace characters used by `\s`
in the `re` patterns of the source. -/
def isPySpace (c : Char) : Bool :=
  c == ' ' || c == '\t' || c == '\n' || c == '\r' || c == '\x0b' || c == '\x0c'

/-- Regex `\w` word character (letters, digits, underscore; the source is
only ever fed ASCII tool names). -/
def isWordChar (c : Char) : Bool :=
  c.isAlphanum || c == '_'

/-- True for every character other than a closing parenthesis. -/
def notRParen (c : Char) : Bool :=
  !(c == ')')

/-- True for every character other than a double quote. -/
def notQuote (c : Char) : Bool :=
  !(c == '"')

/-- Python `str.strip()` on a character list. -/
def pyStripChars (cs : List Char) : List Char :=
  ((cs.dropWhile isPySpace).reverse.dropWhile isPySpace).reverse

/-- Python `str.strip()`. -/
def pyStripS (s : String) : String :=
  ⟨pyStripChars s.data⟩

/-- Python slice `lst[-n:]` for a non-negative `n`.
For `n = 0` Python evaluates `lst[-0:] = lst[0:]`, the whole list; for
`n > 0` it is the last `min n (length lst)` elements. -/
def pyTakeLast (xs : List α) (n : Nat) : List α :=
  if n = 0 then xs else xs.drop (xs.length - n)

/-- Python `sep.join(strings)`. -/
def joinStrings (sep : String) : List String → String
  | [] => ""
  | s :: rest => rest.foldl (fun acc x => acc ++ sep ++ x) s

/-- Python `pat in s` (contiguous substring test) on character lists. -/
def hasSubstr : List Char → List Char → Bool
  | [], pat => pat.isEmpty
  | c :: rest, pat => pat.isPrefixOf (c :: rest) || hasSubstr rest pat

/-- Python `repr` of a list of strings, e.g. `['search', 'calculate']`. -/
def pyReprList (xs : List String) : String :=
  "[" ++ joinStrings ", " (xs.map (fun s => "\x27" ++ s ++ "\x27")) ++ "]"

/-- Python `dict[k] = v`: overwrite in place if the key exists, else append. -/
def dictInsert (d : List (String × String)) (k v : String) : List (String × String) :=
  if d.any (fun p => p.1 == k) then
    d.map (fun p => if p.1 == k then (k, v) else p)
  else
    d ++ [(k, v)]

/-! ## Memory (module_2_memory_agent_llamacpp.py, identical in
module_2_memory_state/module_2_memory_agent.py) -/

/-- The `Memory` object's state. -/
structure Memory where
  messages : List Msg
  window_size : Nat
  system_prompt : String
deriving DecidableEq, Repr

/-- `Memory.__init__`: seed with the system message when the prompt string
is truthy (non-empty). -/
def mkMemory (window_size : Nat) (system_prompt : String) : Memory :=
  { messages := if system_prompt = "" then [] else [⟨"system", system_prompt⟩],
    window_size := window_size,
    system_prompt := system_prompt }

/-- `Memory.add_message`: append, with no validation of the role. -/
def Memory.add_message (m : Memory) (role : String) (content : String) : Memory :=
  { m with messages := m.messages ++ [⟨role, content⟩] }

/-- `Memory.get_messages`: the system message (when the first stored
message has role `system`) followed by the Python slice
`self.messages[1:][-self.window_size:]`; otherwise
`self.messages[-self.window_size:]`. -/
def Memory.get_messages (m : Memory) : List Msg :=
  match m.messages with
  | [] => []
  | first :: rest =>
    if first.role = "system" then first :: pyTakeLast rest m.window_size
    else pyTakeLast (first :: rest) m.window_size

/-- `Memory.clear`: keep only a leading system message, if any. -/
def Memory.clear (m : Memory) : Memory :=
  match m.messages with
  | [] => { m with messages := [] }
  | first :: _ =>
    if first.role = "system" then { m with messages := [first] }
    else { m with messages := [] }

/-- Run a sequence of `add_message` calls. -/
def applyOps (m : Memory) (ops : List (String × String)) : Memory :=
  ops.foldl (fun acc op => acc.add_message op.1 op.2) m

/-- The conversation invariant claimed by the spec: at most one message has
role `system`, and any such message occupies position 0. -/
def systemRoleOk (msgs : List Msg) : Prop :=
  msgs.countP (fun m => m.role == "system") ≤ 1 ∧
  ∀ msg ∈ msgs.drop 1, msg.role ≠ "system"

instance (msgs : List Msg) : Decidable (systemRoleOk msgs) := by
  unfold systemRoleOk
  infer_instance

/-! ## Helper lemmas -/

theorem pyTakeLast_nil (n : Nat) : pyTakeLast ([] : List α) n = [] := by
  unfold pyTakeLast
  split <;> simp

/-- C7: for every Memory state, `clear` followed by `get_messages` yields
exactly the one-element list holding the first stored message when that
message has role `system`, and the empty list otherwise. -/
theorem clear_then_get_messages (m : Memory) :
    (m.clear).get_messages =
      match m.messages with
      | [] => []
      | first :: _ => if first.role = "system" then [first] else [] := by
  cases hm : m.messages with
  | nil => simp [Memory.clear, Memory.get_messages, hm]
  | cons first rest =>
    by_cases hr : first.role = "system"
    · simp [Memory.clear, Memory.get_messages, hm, hr, pyTakeLast_nil]
    · simp [Memory.clear, Memory.get_messages, hm, hr]

/-- C1: with `window_size = 0`, `get_messages` returns the entire stored
conversation (Python's `lst[-0:]` is the whole list), not just the system
message: three messages where the spec requires at most `0 + 1`. -/
theorem get_messages_window_zero_returns_all :
    (((mkMemory 0 "sys").add_message "user" "a").add_message "user" "b").get_messages
        = [⟨"system", "sys"⟩, ⟨"user", "a"⟩, ⟨"user", "b"⟩] ∧
    ((((mkMemory 0 "sys").add_message "user" "a").add_message "user" "b").get_messages).length = 3 ∧
    (((mkMemory 0 "sys").add_message "user" "a").add_message "user" "b").window_size = 0 := by
  decide

/-- C8 counterexample: `add_message` performs no role validation, so
appending a message with role `system` to a memory that already holds a
system prompt produces two system-role messages, the second at position 1;
the claimed invariant fails. -/
theorem add_system_message_violates_invariant :
    ((mkMemory 10 "be helpful").add_message "system" "I am second").messages
        = [⟨"system", "be helpful"⟩, ⟨"system", "I am second"⟩] ∧
    ¬ systemRoleOk ((mkMemory 10 "be helpful").add_message "system" "I am second").messages := by
  decide

theorem systemRoleOk_append (l : List Msg) (role content : String)
    (h : systemRoleOk l) (hr : role ≠ "system") :
    systemRoleOk (l ++ [⟨role, content⟩]) := by
  obtain ⟨h1, h2⟩ := h
  constructor
  · rw [List.countP_append]
    have : List.countP (fun m => m.role == "system") [(⟨role, content⟩ : Msg)] = 0 := by
      simp [List.countP_cons, hr]
    omega
  · cases l with
    | nil =>
      intro msg hmsg
      simp at hmsg
    | cons a t =>
      intro msg hmsg
      simp only [List.cons_append, List.drop_succ_cons, List.drop_zero] at hmsg
      rcases List.mem_append.mp hmsg with hmem | hmem
      · exact h2 msg (by simpa using hmem)
      · have : msg = ⟨role, content⟩ := by simpa using hmem
        subst this
        exact hr

/-- C8 amended: the invariant does hold for every memory built from a
construction plus `add_message` calls none of which uses role `system`. -/
theorem memory_invariant_no_system_appends (window_size : Nat) (system_prompt : String)
    (ops : List (String × String)) (h : ∀ op ∈ ops, op.1 ≠ "system") :
    systemRoleOk (applyOps (mkMemory window_size system_prompt) ops).messages := by
  have base : systemRoleOk (mkMemory window_size system_prompt).messages := by
    unfold mkMemory
    by_cases hp : system_prompt = "" <;> simp [hp, systemRoleOk]
  have gen : ∀ (ops : List (String × String)) (m : Memory),
      systemRoleOk m.messages → (∀ op ∈ ops, op.1 ≠ "system") →
      systemRoleOk (applyOps m ops).messages := by
    intro ops
    induction ops with
    | nil => intro m hm _; exact hm
    | cons op t ih =>
      intro m hm hops
      have hstep : systemRoleOk (m.add_message op.1 op.2).messages :=
        systemRoleOk_append m.messages op.1 op.2 hm (hops op (by simp))
      have : applyOps m (op :: t) = applyOps (m.add_message op.1 op.2) t := rfl
      rw [this]
      exact ih (m.add_message op.1 op.2) hstep (fun o ho => hops o (by simp [ho]))
  exact gen ops _ base h

/-- Witness for the amended C8 invariant at a concrete memory. -/
theorem memory_invariant_no_system_appends_witness :
    systemRoleOk (applyOps (mkMemory 3 "be helpful") [("user", "a"), ("assistant", "b")]).messages :=
  memory_invariant_no_system_appends 3 "be helpful" [("user", "a"), ("assistant", "b")] (by decide)

/-! ## Tool registry (module_1_tool_agent_llamacpp.py, identical logic in
module_1_tool_agent.py) -/

/-- A registered capability: its name, its (cleaned) docstring when one
exists, its parameter list — `(parameter name, has a default value)` pairs
in signature order — and its body.  The body receives the keyword-argument
map and either returns the `str()` of its result or raises, which is
modelled as `Except.error` carrying `str(e)`; a keyword mismatch
(`TypeError` from the `**arguments` call) is likewise an `error`. -/
structure Tool where
  name : String
  doc : Option String
  params : List (String × Bool)
  impl : List (String × String) → Except String String

/-- The registry's `self.tools` dict, in insertion order. -/
abbrev ToolRegistry := List Tool

/-- `ToolRegistry.register`: Python dict assignment — a duplicate name
silently overwrites the earlier entry in place. -/
def register (reg : ToolRegistry) (t : Tool) : ToolRegistry :=
  if (reg : List Tool).any (fun u => u.name == t.name) then
    (reg : List Tool).map (fun u => if u.name == t.name then t else u)
  else
    (reg : List Tool) ++ [t]

/-- Python `docstring.split('\n')[0]`. -/
def firstLine (s : String) : String :=
  ⟨s.data.takeWhile (fun c => !(c == '\n'))⟩

/-- The parameter descriptor placed in `properties`. -/
structure ParamSchema where
  type : String
  description : String
deriving DecidableEq, Repr

/-- The `parameters` object of a tool schema. -/
structure ParametersSchema where
  type : String
  properties : List (String × ParamSchema)
  required : List String
deriving DecidableEq, Repr

/-- The `function` object of a tool schema. -/
structure FunctionSchema where
  name : String
  description : String
  parameters : ParametersSchema
deriving DecidableEq, Repr

/-- One entry of the list returned by `get_tool_schema`. -/
structure ToolSchema where
  type : String
  function : FunctionSchema
deriving DecidableEq, Repr

/-- The schema `get_tool_schema` builds for a single registered tool:
description from the docstring's first line (or the fixed fallback), every
parameter typed `"string"`, and a parameter required exactly when it has
no default value. -/
def schemaFor (t : Tool) : ToolSchema :=
  { type := "function",
    function :=
      { name := t.name,
        description :=
          match t.doc with
          | none => "No description provided."
          | some d => if d = "" then "No description provided." else firstLine d,
        parameters :=
          { type := "object",
            properties :=
              t.params.map (fun p =>
                (p.1, { type := "string", description := "The " ++ p.1 ++ " parameter" })),
            required := (t.params.filter (fun p => !p.2)).map (fun p => p.1) } } }

/-- `ToolRegistry.get_tool_schema`. -/
def get_tool_schema (reg : ToolRegistry) : List ToolSchema :=
  (reg : List Tool).map schemaFor

/-- `ToolRegistry.call_tool`: unknown names and raising capabilities both
become error strings; nothing propagates to the caller (totality of this
function is the embedding of "never raises"). -/
def call_tool (reg : ToolRegistry) (tool_name : String) (arguments : List (String × String)) : String :=
  match (reg : List Tool).find? (fun t => t.name == tool_name) with
  | none => "Error: Tool \x27" ++ tool_name ++ "\x27 not found."
  | some t =>
    match t.impl arguments with
    | .ok r => r
    | .error e => "Error calling tool " ++ tool_name ++ ": " ++ e

/-- C3: `call_tool` is total; an unregistered name yields the descriptive
not-found string, a raising capability yields an error string that
contains the exception's message, and a succeeding capability yields its
stringified result. -/
theorem call_tool_never_raises (reg : ToolRegistry) (tool_name : String)
    (arguments : List (String × String)) :
    ((reg : List Tool).find? (fun t => t.name == tool_name) = none →
      call_tool reg tool_name arguments = "Error: Tool \x27" ++ tool_name ++ "\x27 not found.") ∧
    (∀ t e, (reg : List Tool).find? (fun t => t.name == tool_name) = some t →
      t.impl arguments = .error e →
      call_tool reg tool_name arguments = "Error calling tool " ++ tool_name ++ ": " ++ e ∧
      ∃ s, call_tool reg tool_name arguments = s ++ e) ∧
    (∀ t r, (reg : List Tool).find? (fun t => t.name == tool_name) = some t →
      t.impl arguments = .ok r →
      call_tool reg tool_name arguments = r) := by
  refine ⟨?_, ?_, ?_⟩
  · intro h
    simp [call_tool, h]
  · intro t e ht he
    constructor
    · simp [call_tool, ht, he]
    · exact ⟨"Error calling tool " ++ tool_name ++ ": ", by simp [call_tool, ht, he]⟩
  · intro t r ht hr
    simp [call_tool, ht, hr]

/-- A capability whose body always raises, for the C3 witness. -/
def boomTool : Tool :=
  { name := "boom", doc := none, params := [], impl := fun _ => .error "kaboom" }

/-- Witness for C3 at concrete inputs: a missing tool and a raising tool. -/
theorem call_tool_never_raises_witness :
    call_tool ([] : ToolRegistry) "nope" [] = "Error: Tool \x27nope\x27 not found." ∧
    call_tool ([boomTool] : ToolRegistry) "boom" [] = "Error calling tool boom: kaboom" :=
  ⟨(call_tool_never_raises ([] : ToolRegistry) "nope" []).1 rfl,
   ((call_tool_never_raises ([boomTool] : ToolRegistry) "boom" []).2.1 boomTool "kaboom" rfl rfl).1⟩

/-- C9: every parameter in a generated schema is typed `"string"`, and a
parameter name is listed in `required` exactly when it appears in the
signature with no default value. -/
theorem get_tool_schema_string_and_required (reg : ToolRegistry) (t : Tool)
    (ht : t ∈ (reg : List Tool)) :
    schemaFor t ∈ get_tool_schema reg ∧
    (∀ pr ∈ (schemaFor t).function.parameters.properties, pr.2.type = "string") ∧
    (∀ n, n ∈ (schemaFor t).function.parameters.required ↔ (n, false) ∈ t.params) := by
  refine ⟨List.mem_map_of_mem schemaFor ht, ?_, ?_⟩
  · intro pr hpr
    simp only [schemaFor, List.mem_map] at hpr
    obtain ⟨p, _, hp⟩ := hpr
    rw [← hp]
  · intro n
    simp only [schemaFor, List.mem_map, List.mem_filter]
    constructor
    · rintro ⟨p, ⟨hmem, hdef⟩, hname⟩
      have : p = (n, false) := by
        cases p with
        | mk a b =>
          simp only at hname
          simp only [Bool.not_eq_true'] at hdef
          simp [hname, hdef]
      rw [← this]
      exact hmem
    · intro hmem
      exact ⟨(n, false), ⟨hmem, by simp⟩, rfl⟩

/-- A tool with one required and one optional parameter, for the C9 witness. -/
def demoToolAB : Tool :=
  { name := "t", doc := some "Does things.\nIn detail.",
    params := [("a", false), ("b", true)], impl := fun _ => .ok "" }

/-- Witness for C9 at a concrete registry: parameter `a` (no default) is
required, parameter `b` (has a default) is not, and `a` is typed string. -/
theorem get_tool_schema_string_and_required_witness :
    "a" ∈ (schemaFor demoToolAB).function.parameters.required ∧
    ¬ "b" ∈ (schemaFor demoToolAB).function.parameters.required ∧
    ∀ pr ∈ (schemaFor demoToolAB).function.parameters.properties, pr.2.type = "string" :=
  ⟨((get_tool_schema_string_and_required [demoToolAB] demoToolAB
      (List.mem_singleton.mpr rfl)).2.2 "a").mpr (by decide),
   fun hb => absurd (((get_tool_schema_string_and_required [demoToolAB] demoToolAB
      (List.mem_singleton.mpr rfl)).2.2 "b").mp hb) (by decide),
   (get_tool_schema_string_and_required [demoToolAB] demoToolAB
      (List.mem_singleton.mpr rfl)).2.1⟩

/-! ## Unified client, local llama.cpp variant (llm_client.py) -/

/-- A structured tool invocation, as built by `_extract_tool_calls`.  The
Python value wraps the argument map as a JSON string
(`"arguments": json.dumps(args)`); here the map is kept structurally, the
way every consumer reads it back via `json.loads`. -/
structure ToolCall where
  id : String
  type : String
  name : String
  arguments : List (String × String)
deriving DecidableEq, Repr

/-- The normalized completion returned by `chat_completions_create`. -/
structure ChatCompletion where
  content : String
  tool_calls : List ToolCall
deriving DecidableEq, Repr

/-- `LlamaCppClient._format_tools_for_prompt`. -/
def format_tools_for_prompt (tools : List ToolSchema) : String :=
  if tools.isEmpty then ""
  else
    joinStrings "\n"
      (("You have access to the following tools:" ::
        tools.map (fun tool =>
          "- " ++ tool.function.name ++ "(" ++
          joinStrings ", "
            (tool.function.parameters.properties.map (fun p => p.1 ++ ": " ++ p.2.type)) ++
          "): " ++ tool.function.description)) ++
       ["\nTo use a tool, respond with: TOOL_CALL: tool_name(arg1=\"value1\", arg2=\"value2\")"])

/-- The characters of the literal `TOOL_CALL:`. -/
def toolCallTag : List Char := "TOOL_CALL:".data

/-- Matches the regex `TAG\s*(\w+)\((.*?)\)` (DOTALL) anchored at the head
of `cs`; on success returns the tool name, the raw argument text and the
remaining characters after the closing parenthesis.  Because `\s`, `\w`
and the literals `(`/`)` are pairwise disjoint character classes, the
greedy `\s*`/`\w+` runs and the lazy `.*?` up to the first `)` reproduce
the regex engine exactly. -/
def matchCallAt (tag : List Char) (cs : List Char) : Option (String × String × List Char) :=
  if tag.isPrefixOf cs then
    if (((cs.drop tag.length).dropWhile isPySpace).takeWhile isWordChar).isEmpty then none
    else
      match ((cs.drop tag.length).dropWhile isPySpace).dropWhile isWordChar with
      | '(' :: cs2 =>
        match cs2.dropWhile notRParen with
        | ')' :: rest =>
          some (⟨((cs.drop tag.length).dropWhile isPySpace).takeWhile isWordChar⟩,
                ⟨cs2.takeWhile notRParen⟩, rest)
        | _ => none
      | _ => none
  else none

/-- `re.finditer` over the pattern above: left-to-right, non-overlapping;
on failure the scan advances one character, as the regex engine does.
`fuel` bounds the recursion; one unit per character scanned suffices. -/
def extractScan (tag : List Char) : Nat → List Char → List (String × String)
  | 0, _ => []
  | _, [] => []
  | fuel + 1, c :: rest =>
    match matchCallAt tag (c :: rest) with
    | some (n, a, r) => (n, a) :: extractScan tag fuel r
    | none => extractScan tag fuel rest

/-- Matches the regex `(\w+)="([^"]*)"` anchored at the head of `cs`. -/
def matchArgAt (cs : List Char) : Option (String × String × List Char) :=
  let word := cs.takeWhile isWordChar
  if word.isEmpty then none
  else
    match cs.dropWhile isWordChar with
    | '=' :: '"' :: cs2 =>
      match cs2.dropWhile notQuote with
      | '"' :: rest => some (⟨word⟩, ⟨cs2.takeWhile notQuote⟩, rest)
      | _ => none
    | _ => none

/-- `re.finditer` over `(\w+)="([^"]*)"`. -/
def argScan : Nat → List Char → List (String × String)
  | 0, _ => []
  | _, [] => []
  | fuel + 1, c :: rest =>
    match matchArgAt (c :: rest) with
    | some (k, v, r) => (k, v) :: argScan fuel r
    | none => argScan fuel rest

/-- The argument-dict construction inside `_extract_tool_calls`. -/
def parse_args (args_str : String) : List (String × String) :=
  (argScan args_str.data.length args_str.data).foldl
    (fun d kv => dictInsert d kv.1 kv.2) []

/-- `LlamaCppClient._extract_tool_calls`: every textual occurrence in
order, with locally synthesized ids `call_0`, `call_1`, .... -/
def extract_tool_calls (text : String) : List ToolCall :=
  (extractScan toolCallTag text.data.length text.data).enum.map
    (fun p => { id := "call_" ++ toString p.1, type := "function",
                name := p.2.1, arguments := parse_args p.2.2 })

/-- `re.sub(r"TOOL_CALL:.*?\)", "", content, flags=re.DOTALL)`: each
occurrence of the tag through the first following `)` is deleted; a tag
with no later `)` does not match and survives. -/
def stripScan (tag : List Char) : Nat → List Char → List Char
  | 0, cs => cs
  | _, [] => []
  | fuel + 1, c :: rest =>
    if tag.isPrefixOf (c :: rest) then
      match ((c :: rest).drop tag.length).dropWhile notRParen with
      | ')' :: r => stripScan tag fuel r
      | _ => c :: stripScan tag fuel rest
    else c :: stripScan tag fuel rest

/-- Find-or-create of the system message in `chat_completions_create`:
append the tool prompt to the first system message's content, or report
that none exists. -/
def appendToFirstSystem (tool_prompt : String) : List Msg → Option (List Msg)
  | [] => none
  | m :: rest =>
    if m.role = "system" then
      some ({ role := m.role, content := m.content ++ "\n\n" ++ tool_prompt } :: rest)
    else
      match appendToFirstSystem tool_prompt rest with
      | some ms => some (m :: ms)
      | none => none

/-- Lines 217–231 of llm_client.py: when tools are supplied, the caller's
message list is mutated — tool instructions are spliced into the first
system message, or a new system message is inserted at position 0. -/
def inject_tools (tools : List ToolSchema) (messages : List Msg) : List Msg :=
  if tools.isEmpty then messages
  else
    match appendToFirstSystem (format_tools_for_prompt tools) messages with
    | some ms => ms
    | none => ⟨"system", format_tools_for_prompt tools⟩ :: messages

/-- `LlamaCppClient.chat_completions_create`.  The in-process model is the
oracle `backend`, mapping the (already mutated) conversation to the raw
completion text.  The first component of the result is the state of the
caller's `messages` list after the call — Python mutates it in place. -/
def chat_completions_create (messages : List Msg) (tools : List ToolSchema)
    (backend : List Msg → String) : List Msg × ChatCompletion :=
  let messages := inject_tools tools messages
  let content := backend messages
  let tool_calls := if tools.isEmpty then [] else extract_tool_calls content
  let content :=
    if tool_calls.isEmpty then content
    else pyStripS ⟨stripScan toolCallTag content.data.length content.data⟩
  (messages, { content := content, tool_calls := tool_calls })

/-! ## Lemmas about the scanners -/

theorem dropWhile_notRParen_nil (l : List Char) (h : ')' ∉ l) :
    l.dropWhile notRParen = [] := by
  induction l with
  | nil => rfl
  | cons a t ih =>
    have ha : a ≠ ')' := fun he => h (he ▸ List.mem_cons_self a t)
    have hna : notRParen a = true := by simp [notRParen, ha]
    rw [List.dropWhile_cons, if_pos hna]
    exact ih (fun hm => h (List.mem_cons_of_mem a hm))

theorem matchCallAt_none_of_no_rparen (tag cs : List Char) (h : ')' ∉ cs) :
    matchCallAt tag cs = none := by
  unfold matchCallAt
  split
  · split
    · rfl
    · split
      · rename_i cs2 heq
        have hcs2 : ')' ∉ cs2 := by
          intro hm
          apply h
          have h1 : ')' ∈ ((cs.drop tag.length).dropWhile isPySpace).dropWhile isWordChar :=
            heq ▸ List.mem_cons_of_mem _ hm
          have h2 : ')' ∈ (cs.drop tag.length).dropWhile isPySpace :=
            (List.dropWhile_sublist _).mem h1
          have h3 : ')' ∈ cs.drop tag.length := (List.dropWhile_sublist _).mem h2
          exact List.drop_subset _ _ h3
        rw [dropWhile_notRParen_nil cs2 hcs2]
      · rfl
  · rfl

theorem extractScan_nil_of_no_rparen (tag : List Char) :
    ∀ (fuel : Nat) (cs : List Char), ')' ∉ cs → extractScan tag fuel cs = [] := by
  intro fuel
  induction fuel with
  | zero => intro cs _; cases cs <;> rfl
  | succ n ih =>
    intro cs h
    cases cs with
    | nil => rfl
    | cons c rest =>
      have hm := matchCallAt_none_of_no_rparen tag (c :: rest) h
      simp only [extractScan, hm]
      exact ih rest (fun hmem => h (List.mem_cons_of_mem c hmem))

/-- C5: a completion text with no closing parenthesis — in particular the
malformed `TOOL_CALL: f(x="1"` — yields no extracted invocation, and the
returned content is the raw text unmodified. -/
theorem unbalanced_tool_call_not_extracted (s : String) (tools : List ToolSchema)
    (msgs : List Msg) (h : ')' ∉ s.data) :
    extract_tool_calls s = [] ∧
    (chat_completions_create msgs tools (fun _ => s)).2.tool_calls = [] ∧
    (chat_completions_create msgs tools (fun _ => s)).2.content = s := by
  have he : extract_tool_calls s = [] := by
    unfold extract_tool_calls
    rw [extractScan_nil_of_no_rparen toolCallTag s.data.length s.data h]
    rfl
  refine ⟨he, ?_, ?_⟩ <;>
    · unfold chat_completions_create
      by_cases ht : tools.isEmpty <;> simp [ht, he]

/-- Witness for C5 at the exact malformed text from the spec. -/
theorem unbalanced_tool_call_not_extracted_witness :
    extract_tool_calls "TOOL_CALL: f(x=\"1\"" = [] ∧
    (chat_completions_create [⟨"user", "hi"⟩] [] (fun _ => "TOOL_CALL: f(x=\"1\"")).2.tool_calls = [] ∧
    (chat_completions_create [⟨"user", "hi"⟩] [] (fun _ => "TOOL_CALL: f(x=\"1\"")).2.content
        = "TOOL_CALL: f(x=\"1\"" :=
  unbalanced_tool_call_not_extracted "TOOL_CALL: f(x=\"1\"" [] [⟨"user", "hi"⟩] (by decide)

/-- A concrete non-empty tool list (the shape `get_tool_schema` produces). -/
def demoTools : List ToolSchema :=
  [{ type := "function",
     function :=
       { name := "f", description := "Does f.",
         parameters :=
           { type := "object",
             properties := [("x", { type := "string", description := "The x parameter" })],
             required := ["x"] } } },
   { type := "function",
     function :=
       { name := "g", description := "Does g.",
         parameters :=
           { type := "object",
             properties := [("y", { type := "string", description := "The y parameter" })],
             required := ["y"] } } }]

/-- C4: a completion holding exactly the two well-formed textual calls
`TOOL_CALL: f(x="1")` and `TOOL_CALL: g(y="2")` is normalized to exactly
two invocations in left-to-right order with the distinct synthesized ids
`call_0` and `call_1`, and both matched occurrences are removed from the
returned text. -/
theorem two_textual_tool_calls_extracted :
    ((chat_completions_create [⟨"user", "question"⟩] demoTools
        (fun _ => "I will check. TOOL_CALL: f(x=\"1\") then TOOL_CALL: g(y=\"2\") end.")).2.tool_calls
      = [{ id := "call_0", type := "function", name := "f", arguments := [("x", "1")] },
         { id := "call_1", type := "function", name := "g", arguments := [("y", "2")] }]) ∧
    ((chat_completions_create [⟨"user", "question"⟩] demoTools
        (fun _ => "I will check. TOOL_CALL: f(x=\"1\") then TOOL_CALL: g(y=\"2\") end.")).2.content
      = "I will check.  then  end.") ∧
    ("call_0" : String) ≠ "call_1" := by
  decide

theorem appendToFirstSystem_none (tool_prompt : String) (msgs : List Msg)
    (h : ∀ m ∈ msgs, m.role ≠ "system") :
    appendToFirstSystem tool_prompt msgs = none := by
  induction msgs with
  | nil => rfl
  | cons m rest ih =>
    have hm : ¬ m.role = "system" := h m (by simp)
    rw [appendToFirstSystem, if_neg hm, ih (fun x hx => h x (by simp [hx]))]

theorem appendToFirstSystem_spec (tool_prompt : String) (pre post : List Msg) (sysm : Msg)
    (hpre : ∀ m ∈ pre, m.role ≠ "system") (hsys : sysm.role = "system") :
    appendToFirstSystem tool_prompt (pre ++ sysm :: post) =
      some (pre ++ ⟨sysm.role, sysm.content ++ "\n\n" ++ tool_prompt⟩ :: post) := by
  induction pre with
  | nil => simp [appendToFirstSystem, hsys]
  | cons m rest ih =>
    have hm : ¬ m.role = "system" := hpre m (by simp)
    rw [List.cons_append, appendToFirstSystem, if_neg hm,
        ih (fun x hx => hpre x (by simp [hx]))]
    rfl

/-- C10: with a non-empty tool list, `chat_completions_create` returns the
caller's conversation in mutated state: the serialized tool instructions
are appended to the content of the first system message (or a fresh system
message is inserted at position 0 when none exists), the post-call list
differs from the pre-call list, and a repeated call on the already-mutated
list appends the same instructions a second time. -/
theorem chat_completions_create_mutates (tools : List ToolSchema) (backend : List Msg → String)
    (pre post : List Msg) (sysm : Msg) (msgs0 : List Msg)
    (htools : ¬ tools.isEmpty) (hpre : ∀ m ∈ pre, m.role ≠ "system")
    (hsys : sysm.role = "system") :
    ((chat_completions_create (pre ++ sysm :: post) tools backend).1
        = pre ++ ⟨sysm.role, sysm.content ++ "\n\n" ++ format_tools_for_prompt tools⟩ :: post) ∧
    ((chat_completions_create
        (pre ++ ⟨sysm.role, sysm.content ++ "\n\n" ++ format_tools_for_prompt tools⟩ :: post)
        tools backend).1
        = pre ++ ⟨sysm.role,
            sysm.content ++ "\n\n" ++ format_tools_for_prompt tools
              ++ "\n\n" ++ format_tools_for_prompt tools⟩ :: post) ∧
    ((∀ m ∈ msgs0, m.role ≠ "system") →
      (chat_completions_create msgs0 tools backend).1
        = ⟨"system", format_tools_for_prompt tools⟩ :: msgs0) ∧
    ((chat_completions_create (pre ++ sysm :: post) tools backend).1 ≠ pre ++ sysm :: post) := by
  have hfst : ∀ ms : List Msg, (chat_completions_create ms tools backend).1 = inject_tools tools ms :=
    fun ms => rfl
  refine ⟨?_, ?_, ?_, ?_⟩
  · rw [hfst, inject_tools, if_neg htools,
        appendToFirstSystem_spec (format_tools_for_prompt tools) pre post sysm hpre hsys]
  · rw [hfst, inject_tools, if_neg htools,
        appendToFirstSystem_spec (format_tools_for_prompt tools) pre post
          ⟨sysm.role, sysm.content ++ "\n\n" ++ format_tools_for_prompt tools⟩ hpre hsys]
  · intro h0
    rw [hfst, inject_tools, if_neg htools, appendToFirstSystem_none _ msgs0 h0]
  · rw [hfst, inject_tools, if_neg htools,
        appendToFirstSystem_spec (format_tools_for_prompt tools) pre post sysm hpre hsys]
    intro heq
    have hmsg : (⟨sysm.role, sysm.content ++ "\n\n" ++ format_tools_for_prompt tools⟩ : Msg) = sysm := by
      have h1 := List.append_cancel_left heq
      exact (List.cons.injEq _ _ _ _).mp h1 |>.1
    have hcon : sysm.content ++ "\n\n" ++ format_tools_for_prompt tools = sysm.content :=
      congrArg Msg.content hmsg
    have hlen := congrArg String.length hcon
    rw [String.length_append, String.length_append] at hlen
    have : ("\n\n" : String).length = 2 := rfl
    omega

/-- Witness for C10: a concrete conversation with a system message is
returned mutated, and a system-free conversation gains an inserted system
message at position 0. -/
theorem chat_completions_create_mutates_witness :
    ((chat_completions_create [⟨"system", "You help."⟩, ⟨"user", "hi"⟩] demoTools (fun _ => "ok")).1
        = [⟨"system", "You help." ++ "\n\n" ++ format_tools_for_prompt demoTools⟩, ⟨"user", "hi"⟩]) ∧
    ((chat_completions_create [⟨"user", "hi"⟩] demoTools (fun _ => "ok")).1
        = [⟨"system", format_tools_for_prompt demoTools⟩, ⟨"user", "hi"⟩]) ∧
    ((chat_completions_create [⟨"system", "You help."⟩, ⟨"user", "hi"⟩] demoTools (fun _ => "ok")).1
        ≠ [⟨"system", "You help."⟩, ⟨"user", "hi"⟩]) :=
  ⟨(chat_completions_create_mutates demoTools (fun _ => "ok") [] [⟨"user", "hi"⟩]
      ⟨"system", "You help."⟩ [⟨"user", "hi"⟩] (by decide) (by simp) rfl).1,
   (chat_completions_create_mutates demoTools (fun _ => "ok") [] [⟨"user", "hi"⟩]
      ⟨"system", "You help."⟩ [⟨"user", "hi"⟩] (by decide) (by simp) rfl).2.2.1 (by decide),
   (chat_completions_create_mutates demoTools (fun _ => "ok") [] [⟨"user", "hi"⟩]
      ⟨"system", "You help."⟩ [⟨"user", "hi"⟩] (by decide) (by simp) rfl).2.2.2⟩

/-! ## Tool-use control loop (module_1_tool_agent_llamacpp.py,
`agent_with_tools`) -/

/-- The seed system prompt of `agent_with_tools` (triple-quoted in the
source, hence the embedded indentation). -/
def toolSystemPrompt : String :=
  "You are a helpful AI assistant with access to various tools. \n            Use the tools when needed to answer the user\x27s questions accurately. \n            Think step by step and use multiple tools if necessary.\n            \n            After using tools and getting results, provide a final answer to the user."

/-- The body of the `for i in range(max_iterations)` loop, instrumented
with the number of iterations executed (the source prints an iteration
banner per pass).  The normalized client call is the oracle `oracle`; each
requested invocation is dispatched through `call_tool` and its result
appended as a user message, in the order returned. -/
def agent_loop (reg : ToolRegistry) (oracle : List Msg → ChatCompletion) :
    Nat → List Msg → String × Nat
  | 0, _ => ("Agent reached maximum iterations without completing the task.", 0)
  | fuel + 1, messages =>
    if (oracle messages).tool_calls.isEmpty then ((oracle messages).content, 1)
    else
      ((agent_loop reg oracle fuel
          ((messages ++ [⟨"assistant", (oracle messages).content⟩]) ++
            (oracle messages).tool_calls.map (fun tc =>
              ⟨"user", "Tool " ++ tc.name ++ " returned: " ++ call_tool reg tc.name tc.arguments⟩))).1,
       (agent_loop reg oracle fuel
          ((messages ++ [⟨"assistant", (oracle messages).content⟩]) ++
            (oracle messages).tool_calls.map (fun tc =>
              ⟨"user", "Tool " ++ tc.name ++ " returned: " ++ call_tool reg tc.name tc.arguments⟩))).2 + 1)

/-- `agent_with_tools(prompt, max_iterations)`: seed the conversation,
run the loop, return the final text (or the fixed incomplete sentinel). -/
def agent_with_tools (reg : ToolRegistry) (oracle : List Msg → ChatCompletion)
    (prompt : String) (max_iterations : Nat) : String :=
  (agent_loop reg oracle max_iterations
    [⟨"system", toolSystemPrompt⟩, ⟨"user", prompt⟩]).1

theorem agent_loop_iter_le (reg : ToolRegistry) (oracle : List Msg → ChatCompletion) :
    ∀ (fuel : Nat) (messages : List Msg), (agent_loop reg oracle fuel messages).2 ≤ fuel := by
  intro fuel
  induction fuel with
  | zero => intro messages; simp [agent_loop]
  | succ n ih =>
    intro messages
    rw [agent_loop]
    split
    · simp
    · simpa using Nat.succ_le_succ (ih _)

theorem agent_loop_always_tool (reg : ToolRegistry) (oracle : List Msg → ChatCompletion)
    (h : ∀ ms, ¬ (oracle ms).tool_calls.isEmpty) :
    ∀ (fuel : Nat) (messages : List Msg),
      (agent_loop reg oracle fuel messages).1
        = "Agent reached maximum iterations without completing the task." := by
  intro fuel
  induction fuel with
  | zero => intro messages; rfl
  | succ n ih =>
    intro messages
    rw [agent_loop]
    split
    · exact absurd (by assumption) (h messages)
    · exact ih _

/-- C6: for every backend behaviour the loop executes at most
`max_iterations` iterations, and a backend that always requests a tool
call drives the run to the fixed incomplete sentinel rather than to any
partial content. -/
theorem agent_with_tools_bounded (reg : ToolRegistry) (oracle : List Msg → ChatCompletion)
    (prompt : String) (max_iterations : Nat) :
    (agent_loop reg oracle max_iterations
        [⟨"system", toolSystemPrompt⟩, ⟨"user", prompt⟩]).2 ≤ max_iterations ∧
    ((∀ ms, ¬ (oracle ms).tool_calls.isEmpty) →
      agent_with_tools reg oracle prompt max_iterations
        = "Agent reached maximum iterations without completing the task.") :=
  ⟨agent_loop_iter_le reg oracle max_iterations _,
   fun h => agent_loop_always_tool reg oracle h max_iterations _⟩

/-- A backend that requests a tool call on every completion. -/
def alwaysToolOracle : List Msg → ChatCompletion :=
  fun _ => { content := "Let me look that up.",
             tool_calls := [{ id := "call_0", type := "function",
                              name := "get_weather", arguments := [("city", "sf")] }] }

/-- Witness for C6 at a concrete always-tool-calling backend. -/
theorem agent_with_tools_bounded_witness :
    (agent_loop [] alwaysToolOracle 3 [⟨"system", toolSystemPrompt⟩, ⟨"user", "hi"⟩]).2 ≤ 3 ∧
    agent_with_tools [] alwaysToolOracle "hi" 3
      = "Agent reached maximum iterations without completing the task." :=
  ⟨(agent_with_tools_bounded [] alwaysToolOracle "hi" 3).1,
   (agent_with_tools_bounded [] alwaysToolOracle "hi" 3).2 (fun ms => by simp [alwaysToolOracle])⟩

/-! ## ReAct agent (module_3_react_agent_llamacpp.py) -/

/-- One entry of the ReAct agent's `tools` dict: the key, the function's
docstring, and the function itself (raising modelled as `Except.error`,
including a keyword mismatch from the `**args` call). -/
structure RTool where
  name : String
  doc : Option String
  impl : List (String × String) → Except String String

/-- `func.__doc__ or "No description available"`. -/
def docText (doc : Option String) : String :=
  match doc with
  | none => "No description available"
  | some d => if d = "" then "No description available" else d

/-- `ReActAgent._create_system_prompt`. -/
def create_system_prompt (tools : List RTool) : String :=
  "You are a helpful assistant that solves problems step by step.\n\nYou have access to the following tools:\n" ++
  joinStrings "\n" (tools.map (fun t => "- " ++ t.name ++ ": " ++ pyStripS (docText t.doc))) ++
  "\n\nTo solve the problem, you MUST use the following format:\n\nThought: [Your reasoning about what to do next]\nAction: [The tool to use, in the format: tool_name(arg1=\"value1\", arg2=\"value2\")]\nObservation: [The result will be provided by the system]\n\nYou can repeat the Thought/Action/Observation cycle as many times as needed.\n\nWhen you have enough information to answer the question, use this format:\n\nThought: I now have all the information needed to answer the question.\nFinal Answer: [Your final answer to the original question]\n\nImportant:\n- Always start with a Thought\n- Only use tools that are available\n- Be specific in your reasoning\n- When you have the answer, provide a Final Answer\n"

/-- The characters of the literal `Action:`. -/
def actionTag : List Char := "Action:".data

/-- The characters of the literal `Final Answer:`. -/
def finalAnswerTag : List Char := "Final Answer:".data

/-- `re.search` over the pattern `TAG\s*(\w+)\((.*?)\)`: the first
position at which the whole pattern matches. -/
def searchCallScan (tag : List Char) : Nat → List Char → Option (String × String)
  | 0, _ => none
  | _, [] => none
  | fuel + 1, c :: rest =>
    match matchCallAt tag (c :: rest) with
    | some r => some (r.1, r.2.1)
    | none => searchCallScan tag fuel rest

/-- `ReActAgent._parse_action`. -/
def parse_action (text : String) : Option (String × List (String × String)) :=
  match searchCallScan actionTag text.data.length text.data with
  | none => none
  | some r => some (r.1, parse_args r.2)

/-- `ReActAgent._execute_tool`. -/
def execute_tool (tools : List RTool) (tool_name : String)
    (args : List (String × String)) : String :=
  match tools.find? (fun t => t.name == tool_name) with
  | none => "Error: Tool \x27" ++ tool_name ++ "\x27 not found. Available tools: " ++
            pyReprList (tools.map (fun t => t.name))
  | some t =>
    match t.impl args with
    | .ok r => r
    | .error e => "Error executing " ++ tool_name ++ ": " ++ e

/-- The tail of `re.search(r"Final Answer:\s*(.+)", text, re.DOTALL)`
after a located occurrence of the literal, followed by the `.strip()` the
source applies to group 1: with DOTALL the greedy `(.+)` takes everything
after the greedy whitespace run; if nothing follows the literal the match
fails at this occurrence; if only whitespace follows, backtracking leaves
a single whitespace character in the group, which strips to `""`. -/
def finalAnswerAt (rest : List Char) : Option String :=
  if rest.isEmpty then none
  else if (rest.dropWhile isPySpace).isEmpty then some ""
  else some (pyStripS ⟨rest.dropWhile isPySpace⟩)

/-- `re.search` for `Final Answer:\s*(.+)` (first matching occurrence). -/
def searchFinalAnswer : List Char → Option String
  | [] => none
  | c :: rest =>
    if finalAnswerTag.isPrefixOf (c :: rest) then
      match finalAnswerAt ((c :: rest).drop finalAnswerTag.length) with
      | some a => some a
      | none => searchFinalAnswer rest
    else searchFinalAnswer rest

/-- The `for iteration in range(self.max_iterations)` loop of
`ReActAgent.run`, instrumented with the number of iterations executed.
An output containing `Final Answer:` returns the extracted answer; else a
parsed action is executed and its observation appended; else the loop
breaks — and the post-loop return is the same sentinel string as
iteration exhaustion. -/
def react_loop (tools : List RTool) (oracle : List Msg → String) :
    Nat → List Msg → String × Nat
  | 0, _ => ("Failed to find an answer within the iteration limit.", 0)
  | fuel + 1, messages =>
    match (if hasSubstr (oracle messages).data finalAnswerTag
           then searchFinalAnswer (oracle messages).data else none) with
    | some ans => (ans, 1)
    | none =>
      match parse_action (oracle messages) with
      | some act =>
        ((react_loop tools oracle fuel
            ((messages ++ [⟨"assistant", oracle messages⟩]) ++
             [⟨"user", "Observation: " ++ execute_tool tools act.1 act.2⟩])).1,
         (react_loop tools oracle fuel
            ((messages ++ [⟨"assistant", oracle messages⟩]) ++
             [⟨"user", "Observation: " ++ execute_tool tools act.1 act.2⟩])).2 + 1)
      | none => ("Failed to find an answer within the iteration limit.", 1)

/-- `ReActAgent.run`, also reporting how many iterations executed. -/
def ReActAgent.runIter (tools : List RTool) (max_iterations : Nat)
    (oracle : List Msg → String) (question : String) : String × Nat :=
  react_loop tools oracle max_iterations
    [⟨"system", create_system_prompt tools⟩, ⟨"user", question⟩]

/-- `ReActAgent.run`: the returned string alone. -/
def ReActAgent.run (tools : List RTool) (max_iterations : Nat)
    (oracle : List Msg → String) (question : String) : String :=
  (ReActAgent.runIter tools max_iterations oracle question).1

/-- A completion with neither a parseable action nor a final-answer
marker (protocol violation). -/
def refuseOracle : List Msg → String :=
  fun _ => "I cannot determine the answer."

/-- A completion that always carries a parseable action, driving the loop
to iteration exhaustion. -/
def loopOracle : List Msg → String :=
  fun _ => "Thought: again\nAction: lookup(q=\"x\")"

/-- C2 counterexample: the protocol-violation run (first completion has no
action and no `Final Answer:`) terminates after one iteration, the
exhaustion run uses all three, and BOTH return the identical string
`Failed to find an answer within the iteration limit.` — the two outcomes
are not distinguishable by the returned string, contrary to the claim. -/
theorem react_violation_equals_exhaustion :
    ReActAgent.run [] 3 refuseOracle "q" = "Failed to find an answer within the iteration limit." ∧
    ReActAgent.runIter [] 3 refuseOracle "q" = ("Failed to find an answer within the iteration limit.", 1) ∧
    ReActAgent.run [] 3 loopOracle "q" = "Failed to find an answer within the iteration limit." ∧
    ReActAgent.runIter [] 3 loopOracle "q" = ("Failed to find an answer within the iteration limit.", 3) ∧
    ReActAgent.run [] 3 refuseOracle "q" = ReActAgent.run [] 3 loopOracle "q" := by
  decide

/-- C2 amended: when the first completion contains neither a parseable
action nor the `Final Answer:` marker, the run does terminate early —
exactly one iteration executes, for every iteration cap ≥ 1 — but it
returns the same sentinel string as iteration exhaustion, so the two
outcomes are not distinguishable by the returned string. -/
theorem react_protocol_violation_early_same_sentinel (tools : List RTool)
    (oracle : List Msg → String) (question : String) (max_iterations : Nat)
    (hiter : 1 ≤ max_iterations)
    (hfin : hasSubstr
        (oracle [⟨"system", create_system_prompt tools⟩, ⟨"user", question⟩]).data
        finalAnswerTag = false)
    (hact : parse_action
        (oracle [⟨"system", create_system_prompt tools⟩, ⟨"user", question⟩]) = none) :
    ReActAgent.runIter tools max_iterations oracle question
      = ("Failed to find an answer within the iteration limit.", 1) := by
  obtain ⟨n, rfl⟩ : ∃ n, max_iterations = n + 1 :=
    ⟨max_iterations - 1, (Nat.succ_pred_eq_of_pos hiter).symm⟩
  unfold ReActAgent.runIter
  rw [react_loop, hfin, hact]
  rfl

/-- Witness for the amended C2 at a concrete violating completion. -/
theorem react_protocol_violation_early_same_sentinel_witness :
    ReActAgent.runIter [] 5 refuseOracle "q"
      = ("Failed to find an answer within the iteration limit.", 1) :=
  react_protocol_violation_early_same_sentinel [] refuseOracle "q" 5
    (by decide) (by decide) (by decide)
